import Mathlib

/-!
Shallow embedding of `pre_commit_checker.py` (and the historical
`pre-commit-checker.py`) from wesley-dean/pre-commit-checker.

The script scans an organization's repositories, validates each
repository's `.pre-commit-config.yaml`, and reconciles a tracking
issue per non-compliant repository.  External services (GitHub API,
YAML parser, template renderer) are modelled as data: a repository
record carries the outcome of each remote read, and write calls are
recorded as an effect trace.  Python exceptions are modelled with
`Except`: a raised-and-uncaught exception is an `Except.error`.
-/

namespace PreCommitChecker

/-- Python exceptions relevant to the script. -/
inductive PyErr
  | typeError
  | keyError
  | yamlError
  | githubError
  deriving DecidableEq, Repr

/-- A parsed YAML document, as `yaml.safe_load` returns it:
`None`, booleans, integers, strings, sequences (Python lists) and
mappings (Python dicts keyed by strings — the script only ever
looks up the string key "repos"). -/
inductive Yaml
  | ynull
  | ybool (b : Bool)
  | yint (n : Int)
  | ystr (s : String)
  | yseq (l : List Yaml)
  | ymap (l : List (String × Yaml))

/-- Substring test on strings, as Python's `key in s`. -/
def strContainsSub (s pat : String) : Bool :=
  (s.splitOn pat).length ≥ 2

/-- Python's membership test `key in v`.  Works on dicts (key
lookup), strings (substring), lists (element equality); raises
`TypeError` on `None`, booleans and integers. -/
def pyContains (key : String) : Yaml → Except PyErr Bool
  | .ymap l => .ok (l.any (fun p => p.1 = key))
  | .ystr s => .ok (strContainsSub s key)
  | .yseq l =>
      .ok (l.any (fun v => match v with | .ystr s => s = key | _ => false))
  | .ynull => .error .typeError
  | .ybool _ => .error .typeError
  | .yint _ => .error .typeError

/-- Python's subscript `v[key]` with a string key: only dicts
support it; a string or list subscripted by a string raises
`TypeError`. -/
def pySubscript (v : Yaml) (key : String) : Except PyErr Yaml :=
  match v with
  | .ymap l =>
      match l.find? (fun p => p.1 = key) with
      | some p => .ok p.2
      | none => .error .keyError
  | _ => .error .typeError

/-- Python's `len(v)`: defined on strings, lists and dicts; raises
`TypeError` on `None`, booleans and integers. -/
def pyLen : Yaml → Except PyErr Nat
  | .ystr s => .ok s.length
  | .yseq l => .ok l.length
  | .ymap l => .ok l.length
  | .ynull => .error .typeError
  | .ybool _ => .error .typeError
  | .yint _ => .error .typeError

/-- Outcome of `repository.get_contents(path=PRE_COMMIT_CONFIG_FILENAME)`
together with the YAML parse of the base64-decoded content.  YAML
parsing is done by the external `yaml` library, so the artifact
carries its outcome as data: `Except.error` stands for a raised
`yaml.YAMLError`. -/
inductive FetchOutcome
  | found (size : Nat) (parse : Except Unit Yaml)
  | notFound
  | fetchError

/-- The five compliance verdicts of the spec.  Each corresponds to
one distinct branch (and distinct log message) of `has_pre_commit`. -/
inductive Verdict
  | Compliant
  | Missing
  | Empty
  | MalformedYAML
  | InvalidSchema
  deriving DecidableEq, Repr

/-- `has_pre_commit`, lifted to the verdict level.  Mirrors
`pre_commit_checker.py` lines 198-223 branch for branch:
`UnknownObjectException` is caught (`Missing`); any other GitHub
exception propagates; `size <= 1` is `Empty` before any parsing;
the inner `try` catches only `yaml.YAMLError` (`MalformedYAML`),
so a `TypeError` raised by `"repos" not in parsed_config`,
`parsed_config["repos"]` or `len(...)` propagates uncaught. -/
def classify : FetchOutcome → Except PyErr Verdict
  | .notFound => .ok .Missing
  | .fetchError => .error .githubError
  | .found size parse =>
      if size ≤ 1 then .ok .Empty
      else
        match parse with
        | .error _ => .ok .MalformedYAML
        | .ok cfg =>
            match pyContains "repos" cfg with
            | .error e => .error e
            | .ok c =>
              if !c then .ok .InvalidSchema
              else
                match pySubscript cfg "repos" with
                | .error e => .error e
                | .ok v =>
                  match pyLen v with
                  | .error e => .error e
                  | .ok n => if n = 0 then .ok .InvalidSchema else .ok .Compliant

/-- The boolean a verdict maps to: only `Compliant` is `True`. -/
def Verdict.toBool : Verdict → Bool
  | .Compliant => true
  | _ => false

/-- `has_pre_commit(repository)` restricted to its decision on the
fetched artifact: `True` for a compliant config, `False` for the
four non-compliant verdicts, propagated exception otherwise. -/
def has_pre_commit (a : FetchOutcome) : Except PyErr Bool :=
  (classify a).map Verdict.toBool

/-- The tracking-issue title (env default, `MISSING_ISSUE_TITLE`). -/
def MISSING_ISSUE_TITLE : String := "Missing or invalid pre-commit configuration"

/-- The config filename (env default, `PRE_COMMIT_CONFIG_FILENAME`). -/
def PRE_COMMIT_CONFIG_FILENAME : String := ".pre-commit-config.yaml"

/-- ASCII lower-casing of one character, as Python's `str.lower`
acts on ASCII letters. -/
def pyLowerChar (c : Char) : Char :=
  if 'A' ≤ c ∧ c ≤ 'Z' then Char.ofNat (c.toNat + 32) else c

/-- Python's `value.lower()` (they agree on ASCII, which is all the
recognized values use). -/
def pyLower (s : String) : String := ⟨s.data.map pyLowerChar⟩

/-- `is_dry_run(value)`, lines 110-144: lower-case the value; "true"
or "yes" means dry run, "false" or "no" means live, anything else
defaults to dry run. -/
def is_dry_run (value : String) : Bool :=
  let normalized_value := pyLower value
  if normalized_value = "true" ∨ normalized_value = "yes" then true
  else if normalized_value = "false" ∨ normalized_value = "no" then false
  else true

/-- An open issue, as `repository.get_issues(state="open")` yields it. -/
structure Issue where
  number : Nat
  title : String
  deriving DecidableEq, Repr

/-- A remote API call the script completed without the call raising.
Write calls are `createIssue`, `createComment` and `closeIssue`;
`getContents` and `listIssues` are reads. -/
inductive Effect
  | getContents (path : String)
  | listIssues
  | createIssue (title : String) (body : String)
  | createComment (number : Nat) (body : String)
  | closeIssue (number : Nat)
  deriving DecidableEq, Repr

/-- Whether an effect is a write to the external service. -/
def Effect.isWrite : Effect → Bool
  | .createIssue _ _ => true
  | .createComment _ _ => true
  | .closeIssue _ => true
  | _ => false

/-- Whether an effect is an issue creation. -/
def Effect.isCreate : Effect → Bool
  | .createIssue _ _ => true
  | _ => false

/-- Whether an effect is an issue close. -/
def Effect.isClose : Effect → Bool
  | .closeIssue _ => true
  | _ => false

/-- One repository as the scan sees it, together with the behavior
the external service would exhibit: the config-fetch outcome, the
current open issues, whether each remote call raises
(`GithubException`), and the number the service would assign to a
newly created issue. -/
structure Repository where
  name : String
  full_name : String
  archived : Bool
  has_issues : Bool
  contents : FetchOutcome
  issues : List Issue
  listFails : Bool
  createFails : Bool
  commentFails : List Nat
  editFails : List Nat
  nextIssueNumber : Nat

/-- Result of a script fragment: a value, the completed remote
calls, and the log/print lines it emitted. -/
structure Res (α : Type) where
  val : α
  effects : List Effect
  logs : List String
  deriving Repr

/-- The jinja2 renderer (external), modelled as deterministic text
assembly from the template name and the context
`{repository, filename}`. -/
def render (template repository filename : String) : String :=
  template ++ ":" ++ repository ++ ":" ++ filename

/-- `has_pre_commit_issue(repository)`, lines 147-176: list open
issues and report whether any title equals `MISSING_ISSUE_TITLE`
exactly.  A listing failure raises (nothing catches it). -/
def has_pre_commit_issue (r : Repository) : Except PyErr (Res Bool) :=
  if r.listFails then .error .githubError
  else .ok ⟨r.issues.any (fun i => i.title = MISSING_ISSUE_TITLE), [.listIssues], []⟩

/-- `create_issue(repository)`, lines 226-267: render the body;
when not dry run, bail out if issues are disabled, otherwise create
the issue (a raise is caught and logged, returning 0); when dry
run, only log.  Returns the new issue number, or 0. -/
def create_issue (dry : Bool) (r : Repository) : Res Nat :=
  let issue_body := render "open-issue.j2" r.full_name PRE_COMMIT_CONFIG_FILENAME
  if !dry then
    if !r.has_issues then
      ⟨0, [], ["repository doesn\'t support issues"]⟩
    else if r.createFails then
      ⟨0, [], ["Issue creation failed due to GitHub Exception"]⟩
    else
      ⟨r.nextIssueNumber, [.createIssue MISSING_ISSUE_TITLE issue_body], []⟩
  else
    ⟨0, [], ["dry run, so issue not created"]⟩

/-- The body of the loop in `close_issues` for one open issue,
lines 301-315: a non-matching title is skipped; a matching one is
counted first, then (when not dry run) commented on and closed,
with any raise caught and logged after the count was already
incremented. -/
def close_one (dry : Bool) (commentFails editFails : List Nat)
    (comment_body : String) (i : Issue) : Nat × List Effect × List String :=
  if i.title = MISSING_ISSUE_TITLE then
    let logClose := "Closing issue #" ++ toString i.number
    if !dry then
      if i.number ∈ commentFails then
        (1, [], [logClose, "Issue closing failed due to GitHuh Exception"])
      else if i.number ∈ editFails then
        (1, [.createComment i.number comment_body],
          [logClose, "Issue closing failed due to GitHuh Exception"])
      else
        (1, [.createComment i.number comment_body, .closeIssue i.number], [logClose])
    else
      (1, [], [logClose, "dry run, so issue not closed"])
  else (0, [], [])

/-- The loop of `close_issues` over the open-issue listing. -/
def close_loop (dry : Bool) (commentFails editFails : List Nat)
    (comment_body : String) : List Issue → Nat × List Effect × List String
  | [] => (0, [], [])
  | i :: rest =>
      let s := close_one dry commentFails editFails comment_body i
      let t := close_loop dry commentFails editFails comment_body rest
      (s.1 + t.1, s.2.1 ++ t.2.1, s.2.2 ++ t.2.2)

/-- `close_issues(repository)`, lines 270-317: render the comment
body, list open issues (a listing failure raises), run the loop,
and return the count.  The count is incremented for every matching
open issue before the comment/close attempt, so failed attempts are
counted too. -/
def close_issues (dry : Bool) (r : Repository) : Except PyErr (Res Nat) :=
  let comment_body := render "close-issue.j2" r.full_name PRE_COMMIT_CONFIG_FILENAME
  if r.listFails then .error .githubError
  else
    let t := close_loop dry r.commentFails r.editFails comment_body r.issues
    .ok ⟨t.1, .listIssues :: t.2.1, t.2.2⟩

/-- The per-repository body of `main`'s loop, lines 344-362 of
`pre_commit_checker.py` (pacing aside).  An archived repository is
only logged; otherwise the config is fetched and validated
(`has_pre_commit` — an uncaught exception propagates out of the
loop), then the tracking issue is reconciled.  The `dry` argument
is `is_dry_run()` of the process-wide `DRY_RUN`. -/
def process_repo (dry : Bool) (r : Repository) : Except PyErr (Res Unit) :=
  if r.archived then
    .ok ⟨(), [], ["repo is archived; skipping"]⟩
  else
    match has_pre_commit r.contents with
    | .error e => .error e
    | .ok compliant =>
      let fetchEff := [Effect.getContents PRE_COMMIT_CONFIG_FILENAME]
      if compliant then
        match has_pre_commit_issue r with
        | .error e => .error e
        | .ok hasIssue =>
          if hasIssue.val then
            match close_issues dry r with
            | .error e => .error e
            | .ok closed =>
              .ok ⟨(), fetchEff ++ hasIssue.effects ++ closed.effects,
                   "has pre-commit" :: (hasIssue.logs ++ closed.logs)⟩
          else
            .ok ⟨(), fetchEff ++ hasIssue.effects, ["has pre-commit"]⟩
      else
        match has_pre_commit_issue r with
        | .error e => .error e
        | .ok hasIssue =>
          if hasIssue.val then
            .ok ⟨(), fetchEff ++ hasIssue.effects,
                 ["Does NOT have pre-commit", "has issue"]⟩
          else
            let created := create_issue dry r
            .ok ⟨(), fetchEff ++ hasIssue.effects ++ created.effects,
                 ["Does NOT have pre-commit", "NEEDS issue"] ++ created.logs ++
                   [if created.val = 0 then "No issue created in " ++ r.name
                    else "Created " ++ r.name ++ "#" ++ toString created.val]⟩

/-- `main`'s loop over the organization's repositories: any
exception that escapes a repository's processing propagates and
aborts the whole scan (there is no try/except around the loop
body). -/
def scan (dry : Bool) : List Repository → Except PyErr (List (String × Res Unit))
  | [] => .ok []
  | r :: rest =>
      match process_repo dry r with
      | .error e => .error e
      | .ok res =>
          match scan dry rest with
          | .error e => .error e
          | .ok out => .ok ((r.name, res) :: out)

/-- The spec's `ReconciliationAction`. -/
inductive Action
  | NoOp
  | CreateIssue
  | CloseIssues (n : Nat)
  deriving DecidableEq, Repr

/-- The action `main`'s branch structure selects for one
repository: archived → `NoOp`; compliant with a tracking issue →
`CloseIssues`; compliant without → `NoOp`; non-compliant with a
tracking issue → `NoOp`; non-compliant without → `CreateIssue`. -/
def reconcile_action (dry : Bool) (r : Repository) : Except PyErr Action :=
  if r.archived then .ok .NoOp
  else
    match has_pre_commit r.contents with
    | .error e => .error e
    | .ok compliant =>
      match has_pre_commit_issue r with
      | .error e => .error e
      | .ok hasIssue =>
        if compliant then
          if hasIssue.val then
            match close_issues dry r with
            | .error e => .error e
            | .ok closed => .ok (.CloseIssues closed.val)
          else .ok .NoOp
        else
          if hasIssue.val then .ok .NoOp
          else .ok .CreateIssue

/-- The external issue store after one run of the loop body on `r`:
a successful live create appends one open issue with the tracking
title; a live close removes every matching open issue whose comment
and close both completed; dry runs and failed calls change
nothing. -/
def apply_reconcile (dry : Bool) (r : Repository) : Except PyErr Repository :=
  if r.archived then .ok r
  else
    match has_pre_commit r.contents with
    | .error e => .error e
    | .ok compliant =>
      if r.listFails then .error .githubError
      else
        let hasIssue := r.issues.any (fun i => i.title = MISSING_ISSUE_TITLE)
        if compliant then
          if hasIssue then
            if dry then .ok r
            else
              let kept := r.issues.filter (fun i =>
                (i.title != MISSING_ISSUE_TITLE) || r.commentFails.contains i.number ||
                  r.editFails.contains i.number)
              .ok { r with issues := kept }
          else .ok r
        else
          if hasIssue then .ok r
          else
            if dry ∨ !r.has_issues ∨ r.createFails then .ok r
            else .ok { r with
              issues := r.issues ++ [⟨r.nextIssueNumber, MISSING_ISSUE_TITLE⟩],
              nextIssueNumber := r.nextIssueNumber + 1 }

/-! ### The historical script `pre-commit-checker.py`

Its `has_pre_commit` only distinguishes found / not found, and its
loop starts with `if repo.archived: next` — in Python `next` is a
bare name expression that does nothing (`continue` was intended),
so execution falls through and archived repositories are processed
like any other. -/

/-- The old script's tracking title. -/
def MISSING_ISSUE_TITLE_OLD : String := "Missing pre-commit configuration"

/-- The old script's `has_pre_commit`: any found content counts,
`UnknownObjectException` means `False`, anything else propagates. -/
def has_pre_commit_old : FetchOutcome → Except PyErr Bool
  | .found _ _ => .ok true
  | .notFound => .ok false
  | .fetchError => .error .githubError

/-- The per-repository body of the old script's `main` loop, lines
46-59 of `pre-commit-checker.py`.  The `if repo.archived: next`
line is a no-op, so even an archived repository has its config
fetched (and, when non-compliant, its issues listed). -/
def process_repo_old (r : Repository) : Except PyErr (Res Unit) :=
  match has_pre_commit_old r.contents with
  | .error e => .error e
  | .ok compliant =>
    let fetchEff := [Effect.getContents PRE_COMMIT_CONFIG_FILENAME]
    if compliant then
      .ok ⟨(), fetchEff, [r.name, "has pre-commit"]⟩
    else if r.listFails then .error .githubError
    else if r.issues.any (fun i => i.title = MISSING_ISSUE_TITLE_OLD) then
      .ok ⟨(), fetchEff ++ [.listIssues],
           [r.name, "Does NOT have pre-commit", "has issue"]⟩
    else
      .ok ⟨(), fetchEff ++ [.listIssues],
           [r.name, "Does NOT have pre-commit", "NEEDS issue"]⟩

/-! ### Startup (module level, lines 34-69)

`PAT = str(os.getenv("PAT", None))` applies Python's `str()` to the
lookup result, so an absent variable yields the **string** "None",
never the `None` object; the subsequent `if PAT is None: sys.exit(1)`
then compares a `str` against `None` with identity. -/

/-- `os.getenv(k)`: the variable's value, or Python `None`. -/
def getenv (env : List (String × String)) (k : String) : Option String :=
  (env.find? (fun p => p.1 = k)).map (fun p => p.2)

/-- Python's `str()` on an optional string: `str(None)` is the
four-character string "None". -/
def pyStr : Option String → String
  | none => "None"
  | some s => s

/-- `PAT = str(os.getenv("PAT", None))`, line 34. -/
def PAT (env : List (String × String)) : String := pyStr (getenv env "PAT")

/-- `ORG = str(os.getenv("ORG", None))`, line 39. -/
def ORG (env : List (String × String)) : String := pyStr (getenv env "ORG")

/-- `DRY_RUN = os.getenv("DRY_RUN", "True")`, line 44. -/
def DRY_RUN (env : List (String × String)) : String :=
  (getenv env "DRY_RUN").getD "True"

/-- A Python value as seen by an `is None` check: `str()` output is
always a `str`, so the values bound to `PAT` and `ORG` are `pystr`s. -/
inductive PyVal
  | pynone
  | pystr (s : String)
  deriving DecidableEq, Repr

/-- Python `v is None`. -/
def pyIsNone : PyVal → Bool
  | .pynone => true
  | .pystr _ => false

/-- The module-level startup check, lines 63-69: exit code 1 when
`PAT is None`, else exit code 1 when `ORG is None`, else continue
(`none` = no exit). -/
def startup_exit (env : List (String × String)) : Option Nat :=
  if pyIsNone (.pystr (PAT env)) then some 1
  else if pyIsNone (.pystr (ORG env)) then some 1
  else none

/-! ## Concrete scenarios used by counterexamples and witnesses -/

/-- A compliant parse: a mapping with a one-element `repos` sequence. -/
def goodParse : Except Unit Yaml := .ok (.ymap [("repos", .yseq [.ynull])])

/-- A repository whose only matching open issue fails on the
comment call: used against `close_issues`'s counting. -/
def cexRepoC2 : Repository :=
  { name := "alpha", full_name := "org/alpha", archived := false, has_issues := true,
    contents := .found 10 goodParse,
    issues := [⟨5, MISSING_ISSUE_TITLE⟩], listFails := false, createFails := false,
    commentFails := [5], editFails := [], nextIssueNumber := 9 }

/-- A repository with two open tracking issues and no remote
failures. -/
def repoTwoIssues : Repository :=
  { name := "gamma", full_name := "org/gamma", archived := false, has_issues := true,
    contents := .found 10 goodParse,
    issues := [⟨3, MISSING_ISSUE_TITLE⟩, ⟨4, "unrelated"⟩, ⟨7, MISSING_ISSUE_TITLE⟩],
    listFails := false, createFails := false,
    commentFails := [], editFails := [], nextIssueNumber := 9 }

/-- A non-compliant repository (config absent) with no open issues. -/
def repoNeedsIssue : Repository :=
  { name := "beta", full_name := "org/beta", archived := false, has_issues := true,
    contents := .notFound,
    issues := [], listFails := false, createFails := false,
    commentFails := [], editFails := [], nextIssueNumber := 12 }

/-- A repository whose config fetch raises a GitHub error other
than not-found. -/
def repoFetchFault : Repository :=
  { name := "delta", full_name := "org/delta", archived := false, has_issues := true,
    contents := .fetchError,
    issues := [], listFails := false, createFails := false,
    commentFails := [], editFails := [], nextIssueNumber := 1 }

/-- An archived repository with no config file, as the historical
script's loop sees it. -/
def repoArchivedOld : Repository :=
  { name := "legacy", full_name := "org/legacy", archived := true, has_issues := true,
    contents := .notFound,
    issues := [], listFails := false, createFails := false,
    commentFails := [], editFails := [], nextIssueNumber := 1 }

/-! ## Theorems for the claims -/

/-- C7: an artifact whose fetch outcome is NotFound gets the
verdict `Missing` (a non-compliant verdict, `has_pre_commit`
returns `False`), and the not-found signal is the only fetch
failure converted into a verdict: any other fetch error is
propagated as an exception, not a verdict. -/
theorem C7_notFound_is_missing :
    classify .notFound = .ok .Missing ∧
    has_pre_commit .notFound = .ok false ∧
    classify .fetchError = .error .githubError ∧
    has_pre_commit .fetchError = .error .githubError :=
  ⟨rfl, rfl, rfl, rfl⟩

/-- C8: a found artifact of byte size ≤ 1 gets the verdict `Empty`
regardless of its content — the classification is identical for
any two contents, so no decoding or parsing outcome can influence
it. -/
theorem C8_small_is_empty (sz : Nat) (p q : Except Unit Yaml) (h : sz ≤ 1) :
    classify (.found sz p) = .ok .Empty ∧
    classify (.found sz p) = classify (.found sz q) := by
  constructor
  · unfold classify
    simp [h]
  · unfold classify
    simp [h]

/-- Witness for C8 at size 1, with a failing parse on one side and
a successful parse on the other. -/
theorem C8_small_is_empty_witness :
    classify (.found 1 (.error ())) = .ok .Empty ∧
    classify (.found 1 (.error ())) = classify (.found 1 (.ok .ynull)) :=
  C8_small_is_empty 1 (.error ()) (.ok .ynull) (by decide)

/-- C1 counterexample: a found artifact of size 10 whose content
parses to `None` (e.g. a comment-only YAML file) is not classified
at all: `"repos" not in None` raises an uncaught `TypeError`, so
`has_pre_commit` neither returns `False` (InvalidSchema) nor any
verdict, contradicting the claimed totality. -/
theorem C1_none_parse_raises :
    classify (.found 10 (.ok .ynull)) = .error .typeError ∧
    has_pre_commit (.found 10 (.ok .ynull)) = .error .typeError :=
  ⟨rfl, rfl⟩

/-- C1 amended: for found artifacts of size > 1, a YAML parse
failure yields `MalformedYAML`; a top-level mapping without a
"repos" key yields `InvalidSchema`; a mapping whose "repos" entry
holds a sequence yields `InvalidSchema` when it is empty and
`Compliant` otherwise; but a document parsing to `None` raises an
uncaught `TypeError` instead of producing a verdict (only
`yaml.YAMLError` is caught), and likewise for other scalars. -/
theorem C1_validator_classification (sz : Nat) (h : 1 < sz) :
    (∀ e : Unit, classify (.found sz (.error e)) = .ok .MalformedYAML) ∧
    (∀ m : List (String × Yaml), m.any (fun p => p.1 = "repos") = false →
      classify (.found sz (.ok (.ymap m))) = .ok .InvalidSchema) ∧
    (∀ (m : List (String × Yaml)) (l : List Yaml),
      m.find? (fun p => p.1 = "repos") = some ("repos", Yaml.yseq l) →
      classify (.found sz (.ok (.ymap m))) =
        .ok (if l.length = 0 then Verdict.InvalidSchema else Verdict.Compliant)) ∧
    classify (.found sz (.ok .ynull)) = .error .typeError ∧
    (∀ n : Int, classify (.found sz (.ok (.yint n))) = .error .typeError) := by
  have hsz : ¬ sz ≤ 1 := Nat.not_le.mpr h
  refine ⟨?_, ?_, ?_, ?_, ?_⟩
  · intro e
    unfold classify
    simp [hsz]
  · intro m hany
    unfold classify
    simp [hsz, pyContains, hany]
  · intro m l hfind
    have hmem := List.mem_of_find?_eq_some hfind
    have hany : m.any (fun p => p.1 = "repos") = true := by
      rw [List.any_eq_true]
      exact ⟨("repos", Yaml.yseq l), hmem, by simp⟩
    unfold classify
    simp [hsz, pyContains, hany, pySubscript, hfind, pyLen]
    split <;> rfl
  · unfold classify
    simp [hsz, pyContains]
  · intro n
    unfold classify
    simp [hsz, pyContains]

/-- Witness for C1's amended classification at size 2: a parse
error, a mapping without "repos", a mapping with a one-element
"repos" sequence, the `None` document, and an integer document. -/
theorem C1_validator_classification_witness :
    classify (.found 2 (.error ())) = .ok .MalformedYAML ∧
    classify (.found 2 (.ok (.ymap [("hooks", .ynull)]))) = .ok .InvalidSchema ∧
    classify (.found 2 (.ok (.ymap [("repos", .yseq [.ynull])]))) =
      .ok (if ([Yaml.ynull].length = 0) then Verdict.InvalidSchema else Verdict.Compliant) ∧
    classify (.found 2 (.ok .ynull)) = .error .typeError ∧
    classify (.found 2 (.ok (.yint 3))) = .error .typeError := by
  have H := C1_validator_classification 2 (by decide)
  exact ⟨H.1 (), H.2.1 [("hooks", .ynull)] (by simp), H.2.2.1 _ [Yaml.ynull] rfl,
    H.2.2.2.1, H.2.2.2.2 3⟩

/-- The count a run of `close_issues` (or `create_issue`) returned,
when it returned at all. -/
def resultCount (x : Except PyErr (Res Nat)) : Option Nat :=
  x.toOption.map Res.val

/-- The completed remote calls of a run, empty when the run raised. -/
def resultEffects {α : Type} (x : Except PyErr (Res α)) : List Effect :=
  match x with
  | .ok res => res.effects
  | .error _ => []

/-- The loop of `close_issues` counts exactly the matching open
issues, successes and failures alike (the counter is incremented
before the comment/close attempt). -/
theorem close_loop_count (dry : Bool) (cf ef : List Nat) (body : String)
    (l : List Issue) :
    (close_loop dry cf ef body l).1 =
      (l.filter (fun i => i.title = MISSING_ISSUE_TITLE)).length := by
  induction l with
  | nil => rfl
  | cons i rest ih =>
      by_cases ht : i.title = MISSING_ISSUE_TITLE
      · simp only [close_loop, close_one, ht, if_true, List.filter_cons,
          decide_eq_true_eq, ih]
        split_ifs <;> simp [ht, Nat.add_comm]
      · simp only [close_loop, close_one, ht, if_false, List.filter_cons, ih]
        simp [ht]

/-- Every matching open issue whose comment and close both
complete contributes both calls to the loop's effect trace. -/
theorem close_loop_effects (cf ef : List Nat) (body : String)
    (l : List Issue) (i : Issue) (hmem : i ∈ l)
    (ht : i.title = MISSING_ISSUE_TITLE)
    (hc : i.number ∉ cf) (he : i.number ∉ ef) :
    Effect.createComment i.number body ∈ (close_loop false cf ef body l).2.1 ∧
    Effect.closeIssue i.number ∈ (close_loop false cf ef body l).2.1 := by
  induction l with
  | nil => cases hmem
  | cons j rest ih =>
      rcases List.mem_cons.mp hmem with hj | hrest
      · subst hj
        simp only [close_loop, close_one, ht, if_true]
        simp only [Bool.not_false, if_true, hc, he, if_neg]
        constructor
        · exact List.mem_append_left _ (by simp)
        · exact List.mem_append_left _ (by simp)
      · have := ih hrest
        simp only [close_loop]
        exact ⟨List.mem_append_right _ this.1, List.mem_append_right _ this.2⟩

/-- C2 counterexample: a repository with exactly one open tracking
issue (#5) whose comment call raises: the issue is neither
commented on nor closed, yet `close_issues` returns 1 — the count
does not equal the number of issues for which both the comment and
the close succeeded (which is 0: no `closeIssue` call completed). -/
theorem C2_failed_close_still_counted :
    close_issues false cexRepoC2 =
      .ok ⟨1, [.listIssues],
           ["Closing issue #5", "Issue closing failed due to GitHuh Exception"]⟩ := by
  rfl

/-- C2 amended: `close_issues` attempts every open issue whose
title equals the tracking title (not just the first) and returns
the number of matching open issues found; an issue whose comment
or close raised is still counted (the counter is incremented
before the attempt), and with no failures both the comment and
close calls complete for every matching issue — in particular with
two matching issues and no failures the count is 2. -/
theorem C2_close_all_count (dry : Bool) (r : Repository)
    (hl : r.listFails = false) :
    resultCount (close_issues dry r) =
      some (r.issues.filter (fun i => i.title = MISSING_ISSUE_TITLE)).length ∧
    (∀ i : Issue, i ∈ r.issues → i.title = MISSING_ISSUE_TITLE → dry = false →
      i.number ∉ r.commentFails → i.number ∉ r.editFails →
        Effect.createComment i.number
            (render "close-issue.j2" r.full_name PRE_COMMIT_CONFIG_FILENAME)
          ∈ resultEffects (close_issues dry r) ∧
        Effect.closeIssue i.number ∈ resultEffects (close_issues dry r)) := by
  constructor
  · simp only [close_issues, hl, if_false, Bool.false_eq_true, resultCount,
      Except.toOption, Option.map, close_loop_count]
  · intro i hmem ht hdry hc he
    subst hdry
    have H := close_loop_effects r.commentFails r.editFails
      (render "close-issue.j2" r.full_name PRE_COMMIT_CONFIG_FILENAME)
      r.issues i hmem ht hc he
    simp only [close_issues, hl, if_false, Bool.false_eq_true, resultEffects]
    exact ⟨List.mem_cons_of_mem _ H.1, List.mem_cons_of_mem _ H.2⟩

/-- Witness for C2's amended counting: the two matching open
issues #3 and #7 of `repoTwoIssues` are both commented on and
closed, and the returned count is 2. -/
theorem C2_close_all_count_witness :
    resultCount (close_issues false repoTwoIssues) = some 2 ∧
    Effect.closeIssue 3 ∈ resultEffects (close_issues false repoTwoIssues) ∧
    Effect.closeIssue 7 ∈ resultEffects (close_issues false repoTwoIssues) := by
  have H := C2_close_all_count false repoTwoIssues rfl
  refine ⟨?_, ?_, ?_⟩
  · rw [H.1]
    rfl
  · exact (H.2 ⟨3, MISSING_ISSUE_TITLE⟩ (by simp [repoTwoIssues]) rfl rfl
      (by simp [repoTwoIssues]) (by simp [repoTwoIssues])).2
  · exact (H.2 ⟨7, MISSING_ISSUE_TITLE⟩ (by simp [repoTwoIssues]) rfl rfl
      (by simp [repoTwoIssues]) (by simp [repoTwoIssues])).2

/-- In dry-run mode `create_issue` issues no call, returns 0, and
logs the intended action. -/
theorem create_issue_dry (r : Repository) :
    create_issue true r = ⟨0, [], ["dry run, so issue not created"]⟩ := rfl

/-- In dry-run mode the close loop issues no call at all. -/
theorem close_loop_dry_no_effects (cf ef : List Nat) (body : String)
    (l : List Issue) : (close_loop true cf ef body l).2.1 = [] := by
  induction l with
  | nil => rfl
  | cons i rest ih =>
      simp only [close_loop, close_one]
      split_ifs <;> simp_all

/-- In dry-run mode the close loop still logs, per matching open
issue, that the close was withheld. -/
theorem close_loop_dry_logs (cf ef : List Nat) (body : String)
    (l : List Issue) (i : Issue) (hmem : i ∈ l)
    (ht : i.title = MISSING_ISSUE_TITLE) :
    "dry run, so issue not closed" ∈ (close_loop true cf ef body l).2.2 := by
  induction l with
  | nil => cases hmem
  | cons j rest ih =>
      rcases List.mem_cons.mp hmem with hj | hrest
      · subst hj
        simp only [close_loop, close_one, ht, if_true]
        exact List.mem_append_left _ (by simp)
      · exact List.mem_append_right _ (ih hrest)

/-- C3: with the dry-run flag enabled, one repository's whole
reconciliation issues no create, comment or close call, whatever
the verdict and the existing issues; and the log still reports the
withheld action: the create path logs "dry run, so issue not
created" and the close path logs "dry run, so issue not closed"
for each matching open issue. -/
theorem C3_dry_run_invariant (r : Repository) (res : Res Unit)
    (h : process_repo true r = .ok res) :
    res.effects.all (fun e => !e.isWrite) = true ∧
    (r.archived = false → has_pre_commit r.contents = .ok false →
      r.issues.any (fun i => i.title = MISSING_ISSUE_TITLE) = false →
      "dry run, so issue not created" ∈ res.logs) ∧
    (r.archived = false → has_pre_commit r.contents = .ok true →
      ∀ i : Issue, i ∈ r.issues → i.title = MISSING_ISSUE_TITLE →
        "dry run, so issue not closed" ∈ res.logs) := by
  unfold process_repo at h
  by_cases harch : r.archived = true
  · simp only [harch, if_true] at h
    obtain rfl : (⟨(), [], ["repo is archived; skipping"]⟩ : Res Unit) = res :=
      by injection h
    refine ⟨rfl, ?_, ?_⟩
    · intro hfalse
      rw [harch] at hfalse
      cases hfalse
    · intro hfalse
      rw [harch] at hfalse
      cases hfalse
  · simp only [harch, if_false] at h
    cases hhc : has_pre_commit r.contents with
    | error e => rw [hhc] at h; cases h
    | ok compliant =>
      rw [hhc] at h
      by_cases hlist : r.listFails = true
      · simp only [has_pre_commit_issue, hlist, if_true] at h
        cases compliant <;> simp only [if_true, if_false, Bool.false_eq_true] at h <;>
          cases h
      · simp only [has_pre_commit_issue, hlist, if_false, Bool.false_eq_true] at h
        cases compliant
        · simp only [Bool.false_eq_true, if_false] at h
          by_cases hany : r.issues.any (fun i => i.title = MISSING_ISSUE_TITLE) = true
          · simp only [hany, if_true] at h
            obtain rfl :
                (⟨(), [Effect.getContents PRE_COMMIT_CONFIG_FILENAME, .listIssues],
                  ["Does NOT have pre-commit", "has issue"]⟩ : Res Unit) = res :=
              by injection h
            refine ⟨rfl, ?_, ?_⟩
            · intro _ _ hno
              rw [hany] at hno
              cases hno
            · intro _ hcontra
              exact absurd hcontra (by simp)
          · simp only [hany, if_false, create_issue_dry] at h
            obtain rfl :
                (⟨(), [Effect.getContents PRE_COMMIT_CONFIG_FILENAME, .listIssues],
                  ["Does NOT have pre-commit", "NEEDS issue",
                   "dry run, so issue not created",
                   "No issue created in " ++ r.name]⟩ : Res Unit) = res :=
              by injection h
            refine ⟨rfl, ?_, ?_⟩
            · intro _ _ _
              simp
            · intro _ hcontra
              exact absurd hcontra (by simp)
        · simp only [if_true] at h
          by_cases hany : r.issues.any (fun i => i.title = MISSING_ISSUE_TITLE) = true
          · simp only [hany, if_true, close_issues, hlist, if_false,
              Bool.false_eq_true] at h
            obtain rfl :
                (⟨(), [Effect.getContents PRE_COMMIT_CONFIG_FILENAME, .listIssues] ++
                    (.listIssues ::
                      (close_loop true r.commentFails r.editFails
                        (render "close-issue.j2" r.full_name
                          PRE_COMMIT_CONFIG_FILENAME) r.issues).2.1),
                  "has pre-commit" :: ([] ++
                    (close_loop true r.commentFails r.editFails
                      (render "close-issue.j2" r.full_name
                        PRE_COMMIT_CONFIG_FILENAME) r.issues).2.2)⟩ : Res Unit) = res :=
              by injection h
            refine ⟨?_, ?_, ?_⟩
            · simp [close_loop_dry_no_effects, Effect.isWrite]
            · intro _ hcontra
              exact absurd hcontra (by simp)
            · intro _ _ i hmem ht
              have := close_loop_dry_logs r.commentFails r.editFails
                (render "close-issue.j2" r.full_name PRE_COMMIT_CONFIG_FILENAME)
                r.issues i hmem ht
              simp only [Res.logs]
              exact List.mem_cons_of_mem _ (by simpa using this)
          · simp only [hany, if_false] at h
            obtain rfl :
                (⟨(), [Effect.getContents PRE_COMMIT_CONFIG_FILENAME, .listIssues],
                  ["has pre-commit"]⟩ : Res Unit) = res :=
              by injection h
            refine ⟨rfl, ?_, ?_⟩
            · intro _ hcontra
              exact absurd hcontra (by simp)
            · intro _ _ i hmem ht
              exfalso
              rw [Bool.not_eq_true] at hany
              rw [List.any_eq_false] at hany
              have hfa := hany i hmem
              simp [ht] at hfa

/-- Witness for C3: a dry-run reconciliation of the non-compliant
`repoNeedsIssue` completes with only read calls and logs the
withheld creation. -/
theorem C3_dry_run_invariant_witness :
    ((⟨(), [Effect.getContents PRE_COMMIT_CONFIG_FILENAME, .listIssues],
      ["Does NOT have pre-commit", "NEEDS issue", "dry run, so issue not created",
       "No issue created in beta"]⟩ : Res Unit)).effects.all
        (fun e => !e.isWrite) = true ∧
    "dry run, so issue not created" ∈
      (⟨(), [Effect.getContents PRE_COMMIT_CONFIG_FILENAME, .listIssues],
        ["Does NOT have pre-commit", "NEEDS issue", "dry run, so issue not created",
         "No issue created in beta"]⟩ : Res Unit).logs := by
  have H := C3_dry_run_invariant repoNeedsIssue
    ⟨(), [Effect.getContents PRE_COMMIT_CONFIG_FILENAME, .listIssues],
      ["Does NOT have pre-commit", "NEEDS issue", "dry run, so issue not created",
       "No issue created in beta"]⟩ rfl
  exact ⟨H.1, H.2.1 rfl rfl rfl⟩

/-- C5: evaluating the module-level startup check with `PAT` and
`ORG` absent from the environment: `str(os.getenv("PAT", None))`
produces the string "None", `PAT is None` is false, and the
process does not exit — for no environment does the check ever
exit, contradicting the intended (and claimed) abort. -/
theorem C5_startup_check_never_exits :
    startup_exit [] = none ∧ PAT [] = "None" ∧ ORG [] = "None" ∧
    ∀ env : List (String × String), startup_exit env = none :=
  ⟨rfl, rfl, rfl, fun _ => rfl⟩

/-- C6 counterexample: a scan of two repositories where the first
repository's config fetch raises an error other than not-found:
the exception propagates out of the loop and the scan aborts with
no outcome at all — the second repository is never reached,
contradicting the claimed log-and-skip-and-continue behavior. -/
theorem C6_scan_aborts_on_one_fault :
    scan false [repoFetchFault, repoNeedsIssue] = .error .githubError := rfl

/-- C6 amended: a config fetch failing with an error other than
not-found, or a failing issue listing, is not caught anywhere: the
exception propagates out of `main`'s loop and aborts the whole
scan, whatever repositories remain. -/
theorem C6_read_fault_aborts_scan (dry : Bool) (r : Repository)
    (rest : List Repository) (harch : r.archived = false)
    (hf : has_pre_commit r.contents = .error .githubError ∨
          (r.listFails = true ∧ ∃ b : Bool, has_pre_commit r.contents = .ok b)) :
    scan dry (r :: rest) = .error .githubError := by
  have hpr : process_repo dry r = .error .githubError := by
    unfold process_repo
    rw [harch]
    simp only [Bool.false_eq_true, if_false]
    rcases hf with hf | ⟨hl, b, hb⟩
    · rw [hf]
    · rw [hb]
      cases b <;> simp [has_pre_commit_issue, hl]
  simp [scan, hpr]

/-- Witness for C6's amended abort behavior at a one-repository
scan whose config fetch faults. -/
theorem C6_read_fault_aborts_scan_witness :
    scan false [repoFetchFault] = .error .githubError :=
  C6_read_fault_aborts_scan false repoFetchFault [] rfl (Or.inl rfl)

/-- The repository state after the reconciler successfully created
the tracking issue. -/
def addTracking (r : Repository) : Repository :=
  { r with issues := r.issues ++ [⟨r.nextIssueNumber, MISSING_ISSUE_TITLE⟩],
           nextIssueNumber := r.nextIssueNumber + 1 }

/-- C4: reconciliation is idempotent.  In the embedding the
per-repository action is a pure function of the observed state, so
two runs over an unchanged state pick the same action by
definition (first conjunct); and after a non-compliant repository
with no tracking issue gets one created (live run, issues enabled,
create call succeeds), the next reconcile of the still
non-compliant repository selects `NoOp` and issues no further
create call. -/
theorem C4_reconcile_idempotent (r : Repository)
    (harch : r.archived = false)
    (hnc : has_pre_commit r.contents = .ok false)
    (hlist : r.listFails = false)
    (hno : r.issues.any (fun i => i.title = MISSING_ISSUE_TITLE) = false)
    (hhi : r.has_issues = true)
    (hcf : r.createFails = false) :
    (∀ (dry : Bool) (s : Repository),
      reconcile_action dry s = reconcile_action dry s) ∧
    reconcile_action false r = .ok .CreateIssue ∧
    apply_reconcile false r = .ok (addTracking r) ∧
    reconcile_action false (addTracking r) = .ok .NoOp ∧
    (resultEffects (process_repo false (addTracking r))).all
      (fun e => !e.isCreate) = true := by
  have hany2 : (addTracking r).issues.any
      (fun i => i.title = MISSING_ISSUE_TITLE) = true := by
    simp [addTracking]
  refine ⟨fun _ _ => rfl, ?_, ?_, ?_, ?_⟩
  · unfold reconcile_action
    rw [harch, hnc]
    simp [has_pre_commit_issue, hlist, hno]
  · unfold apply_reconcile
    rw [harch, hnc]
    simp [hlist, hno, hhi, hcf, addTracking, harch]
  · unfold reconcile_action
    have hc2 : has_pre_commit (addTracking r).contents = .ok false := hnc
    rw [show (addTracking r).archived = r.archived from rfl, harch, hc2]
    simp [has_pre_commit_issue, addTracking, hlist, hany2]
  · unfold process_repo
    have hc2 : has_pre_commit (addTracking r).contents = .ok false := hnc
    rw [show (addTracking r).archived = r.archived from rfl, harch, hc2]
    simp [has_pre_commit_issue, addTracking, hlist, hany2, resultEffects,
      Effect.isCreate]

/-- Witness for C4 at the concrete non-compliant repository
`repoNeedsIssue`: first run creates, the state gains the tracking
issue, second run is `NoOp`. -/
theorem C4_reconcile_idempotent_witness :
    reconcile_action false repoNeedsIssue = .ok .CreateIssue ∧
    apply_reconcile false repoNeedsIssue = .ok (addTracking repoNeedsIssue) ∧
    reconcile_action false (addTracking repoNeedsIssue) = .ok .NoOp := by
  have H := C4_reconcile_idempotent repoNeedsIssue rfl rfl rfl rfl rfl rfl
  exact ⟨H.2.1, H.2.2.1, H.2.2.2.1⟩

/-- C9: in the historical `pre-commit-checker.py`, the line
`if repo.archived: next` is a no-op, so an archived repository
still triggers a config fetch and an issue listing; the current
`pre_commit_checker.py` loop, by contrast, skips it with only a
log line and no remote call. -/
theorem C9_old_script_processes_archived :
    process_repo_old repoArchivedOld =
      .ok ⟨(), [Effect.getContents PRE_COMMIT_CONFIG_FILENAME, .listIssues],
           ["legacy", "Does NOT have pre-commit", "NEEDS issue"]⟩ ∧
    process_repo true repoArchivedOld = .ok ⟨(), [], ["repo is archived; skipping"]⟩ ∧
    process_repo false repoArchivedOld = .ok ⟨(), [], ["repo is archived; skipping"]⟩ := by
  refine ⟨?_, rfl, rfl⟩
  rfl

/-- C10: `is_dry_run` returns `False` exactly when the lower-cased
value is "false" or "no"; every other value — including the
default "True" taken when `DRY_RUN` is unset — yields `True`, the
fail-safe default. -/
theorem C10_is_dry_run_spec (v : String) :
    (is_dry_run v = false ↔ (pyLower v = "false" ∨ pyLower v = "no")) ∧
    DRY_RUN [] = "True" ∧
    is_dry_run (DRY_RUN []) = true := by
  refine ⟨?_, rfl, by decide⟩
  unfold is_dry_run
  by_cases h1 : pyLower v = "true" ∨ pyLower v = "yes"
  · simp only [h1, if_true]
    constructor
    · intro hh
      exact absurd hh (by simp)
    · intro hh
      rcases h1 with h1 | h1 <;> rcases hh with hh | hh <;>
        rw [h1] at hh <;> simp_all
  · simp only [h1, if_false]
    by_cases h2 : pyLower v = "false" ∨ pyLower v = "no"
    · simp [h2]
    · simp [h2]

end PreCommitChecker
